import Mathlib

/-!
Shallow embedding of the door-pricing engine (`pricing_data.py`,
`pricing_logic.py`).  Python floats are modelled as rationals; Python's
`round(x, n)` (round-half-to-even at `n` decimal places) is modelled by
`pyRound`.  Dictionaries become association lists, `dict.get` with a
default becomes `dictGet`, and the one `raise ValueError` becomes an
`Except.error` result threaded through the callers.
-/

namespace DoorPricing

/-- Round a rational to the nearest integer, ties to even
(the rounding mode of Python's built-in `round`). -/
def roundHalfEvenZ (x : ℚ) : ℤ :=
  let n := ⌊x⌋
  if x - n < 1/2 then n
  else if 1/2 < x - n then n + 1
  else if n % 2 = 0 then n else n + 1

/-- Python's `round(x, places)` on exact decimal inputs. -/
def pyRound (x : ℚ) (places : ℕ) : ℚ :=
  (roundHalfEvenZ (x * 10 ^ places) : ℚ) / 10 ^ places

-- pricing_data.py, section A: global constants
def BASE_THICKNESS_MM : ℚ := 30
def THICKNESS_SURCHARGE_RATE : ℚ := 3.25
def DOUBLE_LEAF_FACTOR : ℚ := 0.16
def EDGE_BANDING_RATE : ℚ := 50.00
def SQMM_TO_SQFT : ℚ := 92903.04

-- pricing_data.py, section B: material base rates, keyed by (rails, filler)
def MATERIAL_BASE_RATES : List ((String × String) × ℚ) :=
  [(("Hardwood", "Hardwood"), 144.00),
   (("Pinewood (S.Y.P)", "Ecolax Board"), 144.00),
   (("Hardwood", "Ecolax Board"), 131.00),
   (("Hardwood", "Pinewood (S.Y.P)"), 165.00),
   (("Pinewood (S.Y.P)", "Hardwood"), 156.00),
   (("Pinewood (S.Y.P)", "Pinewood (S.Y.P)"), 175.00)]

-- pricing_data.py, section C: core surcharges
def CORE_SURCHARGES : List (String × ℚ) :=
  [("Double Core", 9.00), ("Core + HDF", 18.00)]

-- pricing_data.py, section D: finish rates
def LAMINATE_RATES : List (String × ℚ) :=
  [("Wenge walnut shade 0.8mm", 3250.00),
   ("Wenge walnut shade 1mm", 4250.00),
   ("Black walnut shade with 3 lines", 5125.00)]

def VENEER_RATES : List (String × ℚ) :=
  [("Smoke Oak Veneer", 90.00),
   ("Teak Veneer - plain", 55.00),
   ("Teak Veneer - design1", 68.00)]

-- pricing_data.py, section E: thickness-conditional vision-hole fees
structure VisionFee where
  T_min : ℚ
  T_max : ℚ
  F_VH : ℚ
deriving DecidableEq

def VISION_HOLE_FEES : List VisionFee :=
  [⟨30, 35, 45.00⟩, ⟨36, 50, 65.00⟩]

-- pricing_data.py, section F: add-on per-sqft rates, string-keyed
def ADDON_SQFT_RATES : List (String × ℚ) :=
  [("Coating_Resin_Coated_One_Side", 80.00),
   ("Coating_Resin_Coated_Both_Sides", 180.00),
   ("Grooving_One_Side", 12.00),
   ("Grooving_Both_Sides", 22.00),
   ("Routing_One_Side", 15.00),
   ("Routing_Both_Sides", 28.00)]

/-- `calculate_area_sqft(L_mm, W_mm, factor)`:
door surface area in sqft times `factor`, rounded to 4 decimals. -/
def calculate_area_sqft (L_mm W_mm factor : ℚ) : ℚ :=
  pyRound (L_mm * W_mm / SQMM_TO_SQFT * factor) 4

/-- `calculate_edge_area_sqft(L_mm, W_mm, T_mm)`:
total edge surface area `2*(L+W)*T / SQMM_TO_SQFT`, rounded to 4 decimals. -/
def calculate_edge_area_sqft (L_mm W_mm T_mm : ℚ) : ℚ :=
  pyRound (2 * (L_mm + W_mm) * T_mm / SQMM_TO_SQFT) 4

/-- Guard of the first core-surcharge branch of `get_psf_rate`:
`T_mm <= 35`. -/
def inLowCoreTier (T_mm : ℚ) : Bool := T_mm ≤ 35

/-- Guard of the second core-surcharge branch of `get_psf_rate`:
`T_mm >= 36`. -/
def inHighCoreTier (T_mm : ℚ) : Bool := 36 ≤ T_mm

/-- Step 2 of `get_psf_rate`:
`thickness_surcharge = max(0, T_mm - T_base) * S_inc`. -/
def thicknessSurcharge (T_mm : ℚ) : ℚ :=
  max 0 (T_mm - BASE_THICKNESS_MM) * THICKNESS_SURCHARGE_RATE

/-- The PSF rate after steps 1-2 of `get_psf_rate`, before the
conditional core surcharge: `R_base + thickness_surcharge`. -/
def preCorePSFRate (R_base T_mm : ℚ) : ℚ :=
  R_base + thicknessSurcharge T_mm

/-- Direct index into `CORE_SURCHARGES` (both keys used by the source
are present in the table). -/
def coreSurchargeOf (core : String) : ℚ :=
  (CORE_SURCHARGES.lookup core).getD 0

/-- `get_psf_rate(rails_material, filler_material, T_mm, core_option)`:
the dynamic skeleton PSF rate, or the `ValueError` for an unknown
material combination. -/
def get_psf_rate (rails_material filler_material : String) (T_mm : ℚ)
    (core_option : String) : Except String ℚ :=
  match MATERIAL_BASE_RATES.lookup (rails_material, filler_material) with
  | none => .error ("Pricing not defined for material combination: (" ++
      rails_material ++ ", " ++ filler_material ++ ")")
  | some R_base =>
    let PSF_rate := preCorePSFRate R_base T_mm
    let PSF_rate :=
      if inLowCoreTier T_mm then
        if core_option = "Double Core" then PSF_rate + coreSurchargeOf "Double Core"
        else if core_option = "Core + HDF" then PSF_rate + coreSurchargeOf "Core + HDF"
        else PSF_rate
      else if inHighCoreTier T_mm then
        if core_option = "Core + HDF" then
          PSF_rate + (coreSurchargeOf "Core + HDF" - coreSurchargeOf "Double Core")
        else PSF_rate
      else PSF_rate
    .ok (pyRound PSF_rate 2)

/-- `calculate_skeleton_cost(L, W, T, rails, filler, core_option)`:
1x face area times the PSF rate, rounded to 2 decimals. -/
def calculate_skeleton_cost (L_mm W_mm T_mm : ℚ)
    (rails filler core_option : String) : Except String ℚ :=
  match get_psf_rate rails filler T_mm core_option with
  | .error e => .error e
  | .ok psf_rate =>
    let area_1x := calculate_area_sqft L_mm W_mm 1
    .ok (pyRound (area_1x * psf_rate) 2)

/-- `calculate_finish_cost(L, W, door_type, finish_option)`:
Laminate is a fixed fee, Veneer prices both faces; a missing finish
rate or an unrecognised door type silently yields 0. -/
def calculate_finish_cost (L_mm W_mm : ℚ) (door_type finish_option : String) : ℚ :=
  if door_type = "Laminate" then
    match LAMINATE_RATES.lookup finish_option with
    | some rate => pyRound rate 2
    | none => 0
  else if door_type = "Veneer" then
    match VENEER_RATES.lookup finish_option with
    | some rate => pyRound (calculate_area_sqft L_mm W_mm 2 * rate) 2
    | none => 0
  else 0

/-- Python's `dict.get(key, default)` on a string-keyed dictionary. -/
def dictGet (d : List (String × String)) (key default_ : String) : String :=
  (d.lookup key).getD default_

/-- Python's `str.lower()` (ASCII case folding suffices for the
option strings the source compares). -/
def pyLower (s : String) : String := String.mk (s.data.map Char.toLower)

/-- Python's whitespace `str.split()`: split on runs of whitespace,
dropping empty pieces.  `acc` holds the current word reversed. -/
def pySplitAux : List Char → List Char → List String
  | [], acc => if acc.isEmpty then [] else [String.mk acc.reverse]
  | c :: cs, acc =>
    if c.isWhitespace then
      if acc.isEmpty then pySplitAux cs []
      else String.mk acc.reverse :: pySplitAux cs []
    else pySplitAux cs (c :: acc)

def pySplit (s : String) : List String := pySplitAux s.data []

/-- `'_'.join(pieces)`. -/
def joinUnderscore : List String → String
  | [] => ""
  | [p] => p
  | p :: ps => p ++ "_" ++ joinUnderscore ps

/-- `.replace('(', '').replace(')', '')`: drop every parenthesis. -/
def stripParens (s : String) : String :=
  String.mk (s.data.filter fun c => !(c == '(') && !(c == ')'))

/-- The composite add-on lookup key built in `calculate_addon_cost`:
`f"{prefix}_{'_'.join(option.split()).replace('(', '').replace(')', '')}"`. -/
def addonLookupKey (pfx option : String) : String :=
  pfx ++ "_" ++ stripParens (joinUnderscore (pySplit option))

/-- One iteration of the keyed area add-on loop (coating / grooving /
routing): if the option is not "none", look up the composite key; a
found (truthy) rate contributes `area_1x_sqft * rate`, a miss only
prints a debug notice and contributes 0. -/
def keyedAddonCost (pfx option : String) (area_1x_sqft : ℚ) : ℚ :=
  if pyLower option ≠ "none" then
    match ADDON_SQFT_RATES.lookup (addonLookupKey pfx option) with
    | some rate => if rate ≠ 0 then area_1x_sqft * rate else 0
    | none => 0
  else 0

/-- The vision-hole fee: first bracket of `VISION_HOLE_FEES` containing
`T_mm`, else 0. -/
def visionHoleFee (T_mm : ℚ) : ℚ :=
  match VISION_HOLE_FEES.find?
      (fun f => decide (f.T_min ≤ T_mm) && decide (T_mm ≤ f.T_max)) with
  | some f => f.F_VH
  | none => 0

/-- `calculate_addon_cost(L, W, T, skeleton_cost, add_ons)`: the sum of
double-leaf, vision-hole, edge-banding and the three keyed area add-ons,
rounded to 2 decimals.  `add_ons` is the Python dictionary as an
association list. -/
def calculate_addon_cost (L_mm W_mm T_mm skeleton_cost : ℚ)
    (add_ons : List (String × String)) : ℚ :=
  let area_1x_sqft := calculate_area_sqft L_mm W_mm 1
  let doubleLeafTerm :=
    if pyLower (dictGet add_ons "double_leaf" "no") = "yes" then
      skeleton_cost * DOUBLE_LEAF_FACTOR
    else 0
  let visionTerm :=
    if pyLower (dictGet add_ons "vision_hole" "no") = "yes" then
      visionHoleFee T_mm
    else 0
  let edgeTerm :=
    if pyLower (dictGet add_ons "edge_banding" "yes") = "yes" then
      calculate_edge_area_sqft L_mm W_mm T_mm * EDGE_BANDING_RATE
    else 0
  let coatingTerm := keyedAddonCost "Coating" (dictGet add_ons "coating" "none") area_1x_sqft
  let groovingTerm := keyedAddonCost "Grooving" (dictGet add_ons "grooving" "none") area_1x_sqft
  let routingTerm := keyedAddonCost "Routing" (dictGet add_ons "routing" "none") area_1x_sqft
  pyRound (doubleLeafTerm + visionTerm + edgeTerm +
    coatingTerm + groovingTerm + routingTerm) 2

/-- The dictionary returned by `calculate_total_price`. -/
structure PriceBreakdown where
  skeleton_cost : ℚ
  finish_cost : ℚ
  addon_cost : ℚ
  total_price : ℚ
deriving DecidableEq

/-- `calculate_total_price(...)`: orchestrates skeleton, finish and
add-on pricing; the unknown-material `ValueError` propagates. -/
def calculate_total_price (L_mm W_mm T_mm : ℚ)
    (rails filler core_option door_type finish_option : String)
    (add_ons : List (String × String)) : Except String PriceBreakdown :=
  match calculate_skeleton_cost L_mm W_mm T_mm rails filler core_option with
  | .error e => .error e
  | .ok skeleton_cost =>
    let finish_cost := calculate_finish_cost L_mm W_mm door_type finish_option
    let addon_cost := calculate_addon_cost L_mm W_mm T_mm skeleton_cost add_ons
    .ok ⟨skeleton_cost, finish_cost, addon_cost,
      pyRound (skeleton_cost + finish_cost + addon_cost) 2⟩

/-! ### Helper lemmas: concrete table lookups and rounding facts -/

theorem lookup_HW_HW : MATERIAL_BASE_RATES.lookup ("Hardwood", "Hardwood") = some 144.00 := rfl

theorem lookup_PW_EB : MATERIAL_BASE_RATES.lookup ("Pinewood (S.Y.P)", "Ecolax Board") = some 144.00 := rfl

theorem lookup_HW_EB : MATERIAL_BASE_RATES.lookup ("Hardwood", "Ecolax Board") = some 131.00 := rfl

theorem lookup_HW_PW : MATERIAL_BASE_RATES.lookup ("Hardwood", "Pinewood (S.Y.P)") = some 165.00 := rfl

theorem lookup_PW_HW : MATERIAL_BASE_RATES.lookup ("Pinewood (S.Y.P)", "Hardwood") = some 156.00 := rfl

theorem lookup_PW_PW : MATERIAL_BASE_RATES.lookup ("Pinewood (S.Y.P)", "Pinewood (S.Y.P)") = some 175.00 := rfl

theorem lookup_EB_HW_none : MATERIAL_BASE_RATES.lookup ("Ecolax Board", "Hardwood") = none := rfl

theorem coreSurchargeOf_DC : coreSurchargeOf "Double Core" = 9.00 := rfl

theorem coreSurchargeOf_HDF : coreSurchargeOf "Core + HDF" = 18.00 := rfl

/-- A successful material lookup can only hit one of the six table rows. -/
theorem material_lookup_cases (rails filler : String) (r : ℚ)
    (h : MATERIAL_BASE_RATES.lookup (rails, filler) = some r) :
    (rails = "Hardwood" ∧ filler = "Hardwood" ∧ r = 144) ∨
    (rails = "Pinewood (S.Y.P)" ∧ filler = "Ecolax Board" ∧ r = 144) ∨
    (rails = "Hardwood" ∧ filler = "Ecolax Board" ∧ r = 131) ∨
    (rails = "Hardwood" ∧ filler = "Pinewood (S.Y.P)" ∧ r = 165) ∨
    (rails = "Pinewood (S.Y.P)" ∧ filler = "Hardwood" ∧ r = 156) ∨
    (rails = "Pinewood (S.Y.P)" ∧ filler = "Pinewood (S.Y.P)" ∧ r = 175) := by
  simp only [MATERIAL_BASE_RATES, List.lookup, beq_iff_eq, Prod.mk.injEq] at h
  repeat' split at h
  all_goals simp_all
  all_goals rw [← h]; norm_num

/-- `roundHalfEvenZ` fixes the integers. -/
theorem roundHalfEvenZ_intCast (n : ℤ) : roundHalfEvenZ (n : ℚ) = n := by
  have hfl : ⌊(n : ℚ)⌋ = n := Int.floor_intCast n
  simp only [roundHalfEvenZ, hfl]
  norm_num

/-! ### C1: total price is the rounded sum of the three component costs -/

/-- C1: for every input on which `calculate_total_price` returns a
`PriceBreakdown`, its `total_price` field equals
`round(skeleton_cost + finish_cost + addon_cost, 2)`; the total is
derived from the three component costs, never independently stored. -/
theorem total_price_is_rounded_sum (L_mm W_mm T_mm : ℚ)
    (rails filler core_option door_type finish_option : String)
    (add_ons : List (String × String)) (b : PriceBreakdown)
    (h : calculate_total_price L_mm W_mm T_mm rails filler core_option door_type
      finish_option add_ons = .ok b) :
    b.total_price = pyRound (b.skeleton_cost + b.finish_cost + b.addon_cost) 2 := by
  unfold calculate_total_price at h
  cases hsk : calculate_skeleton_cost L_mm W_mm T_mm rails filler core_option with
  | error e => rw [hsk] at h; exact Except.noConfusion h
  | ok sc =>
    rw [hsk] at h
    simp only [Except.ok.injEq] at h
    subst h
    rfl

/-- Witness for C1 at a concrete quote whose breakdown is `⟨144, 0, 0, 144⟩`. -/
theorem total_price_is_rounded_sum_check :
    calculate_total_price 9290.304 10 30 "Hardwood" "Hardwood" "None" "Other" "x"
      [("edge_banding", "no")] = .ok ⟨144, 0, 0, 144⟩ ∧
    (⟨144, 0, 0, 144⟩ : PriceBreakdown).total_price =
      pyRound ((⟨144, 0, 0, 144⟩ : PriceBreakdown).skeleton_cost +
        (⟨144, 0, 0, 144⟩ : PriceBreakdown).finish_cost +
        (⟨144, 0, 0, 144⟩ : PriceBreakdown).addon_cost) 2 := by
  have hr : get_psf_rate "Hardwood" "Hardwood" 30 "None" = .ok 144 := by
    simp only [get_psf_rate, lookup_HW_HW]
    simp [inLowCoreTier, inHighCoreTier]
    norm_num [preCorePSFRate, thicknessSurcharge, BASE_THICKNESS_MM,
      THICKNESS_SURCHARGE_RATE, pyRound, roundHalfEvenZ, Int.fract]
  have hsk : calculate_skeleton_cost 9290.304 10 30 "Hardwood" "Hardwood" "None" = .ok 144 := by
    simp only [calculate_skeleton_cost, hr]
    norm_num [calculate_area_sqft, SQMM_TO_SQFT, pyRound, roundHalfEvenZ, Int.fract]
  have hfin : calculate_finish_cost 9290.304 10 "Other" "x" = 0 := by
    simp [calculate_finish_cost]
  have haddon : calculate_addon_cost 9290.304 10 30 144 [("edge_banding", "no")] = 0 := by
    simp only [calculate_addon_cost, dictGet, List.lookup]
    simp [keyedAddonCost, pyLower]
    norm_num [pyRound, roundHalfEvenZ, Int.fract]
  have htot : calculate_total_price 9290.304 10 30 "Hardwood" "Hardwood" "None" "Other" "x"
      [("edge_banding", "no")] = .ok ⟨144, 0, 0, 144⟩ := by
    simp only [calculate_total_price, hsk, hfin, haddon]
    norm_num [pyRound, roundHalfEvenZ, Int.fract]
  exact ⟨htot, total_price_is_rounded_sum 9290.304 10 30 "Hardwood" "Hardwood" "None"
    "Other" "x" [("edge_banding", "no")] ⟨144, 0, 0, 144⟩ htot⟩

/-! ### C2: an unknown material combination aborts the whole quote -/

/-- C2: whenever the (rails, filler) pair is absent from
`MATERIAL_BASE_RATES`, `calculate_total_price` propagates the
unknown-material-combination error and returns no `PriceBreakdown`;
no zero-cost default is substituted. -/
theorem unknown_material_propagates (L_mm W_mm T_mm : ℚ)
    (rails filler core_option door_type finish_option : String)
    (add_ons : List (String × String))
    (h : MATERIAL_BASE_RATES.lookup (rails, filler) = none) :
    calculate_total_price L_mm W_mm T_mm rails filler core_option door_type
      finish_option add_ons =
    .error ("Pricing not defined for material combination: (" ++ rails ++ ", " ++ filler ++ ")") := by
  simp only [calculate_total_price, calculate_skeleton_cost, get_psf_rate, h]

/-- Witness for C2 at the absent pair ("Ecolax Board", "Hardwood"). -/
theorem unknown_material_propagates_check :
    MATERIAL_BASE_RATES.lookup ("Ecolax Board", "Hardwood") = none ∧
    calculate_total_price 2133.6 914.4 40 "Ecolax Board" "Hardwood" "Core + HDF"
      "Veneer" "Smoke Oak Veneer" [] =
    .error "Pricing not defined for material combination: (Ecolax Board, Hardwood)" :=
  ⟨rfl, unknown_material_propagates 2133.6 914.4 40 "Ecolax Board" "Hardwood"
    "Core + HDF" "Veneer" "Smoke Oak Veneer" [] rfl⟩

/-! ### C3: the two core-surcharge tiers are disjoint but do NOT cover
all positive thickness values -/

/-- C3 counterexample: at thickness 35.5 neither core-surcharge branch
of `get_psf_rate` applies (`<=35` and `>=36` are both false), so the
branches do not cover all positive thickness values; behaviourally,
choosing "Double Core" at 35.5 adds no surcharge at all. -/
theorem core_tier_gap_at_thickness_35_5 :
    inLowCoreTier (71/2) = false ∧ inHighCoreTier (71/2) = false ∧
    get_psf_rate "Hardwood" "Hardwood" (71/2) "Double Core" =
      get_psf_rate "Hardwood" "Hardwood" (71/2) "None" := by
  refine ⟨?_, ?_, ?_⟩
  · simp only [inLowCoreTier, decide_eq_false_iff_not]; norm_num
  · simp only [inHighCoreTier, decide_eq_false_iff_not]; norm_num
  · simp only [get_psf_rate, lookup_HW_HW]
    norm_num [inLowCoreTier, inHighCoreTier]

/-- C3 amended: the two core-surcharge branches of `get_psf_rate` are
always disjoint, and they cover exactly the thickness values outside
the open gap (35, 36): for every thickness with `T <= 35` or `T >= 36`
exactly one branch applies; 35 and 36 fall into different branches. -/
theorem core_tiers_disjoint_cover_outside_gap (T_mm : ℚ) :
    (¬ (inLowCoreTier T_mm = true ∧ inHighCoreTier T_mm = true)) ∧
    ((T_mm ≤ 35 ∨ 36 ≤ T_mm) → (inLowCoreTier T_mm = true ∨ inHighCoreTier T_mm = true)) ∧
    inLowCoreTier 35 = true ∧ inHighCoreTier 35 = false ∧
    inLowCoreTier 36 = false ∧ inHighCoreTier 36 = true := by
  refine ⟨?_, ?_, by norm_num [inLowCoreTier],
    by simp only [inHighCoreTier, decide_eq_false_iff_not]; norm_num,
    by simp only [inLowCoreTier, decide_eq_false_iff_not]; norm_num,
    by norm_num [inHighCoreTier]⟩
  · rintro ⟨h1, h2⟩
    simp only [inLowCoreTier, inHighCoreTier, decide_eq_true_eq] at h1 h2
    linarith
  · rintro (h | h)
    · exact Or.inl (by simp only [inLowCoreTier, decide_eq_true_eq]; exact h)
    · exact Or.inr (by simp only [inHighCoreTier, decide_eq_true_eq]; exact h)

/-- Witness for the amended C3 at thickness 20. -/
theorem core_tiers_disjoint_cover_outside_gap_check :
    ((20 : ℚ) ≤ 35 ∨ (36 : ℚ) ≤ 20) ∧
    (inLowCoreTier 20 = true ∨ inHighCoreTier 20 = true) :=
  ⟨Or.inl (by norm_num),
   (core_tiers_disjoint_cover_outside_gap 20).2.1 (Or.inl (by norm_num))⟩

/-! ### C4: boundary behaviour of the PSF rate across the 35/36 tier split -/

/-- C4 counterexample: for the priced pair ("Hardwood", "Hardwood"),
the PSF rate at thickness 36 with "Core + HDF" is 172.50, while the
rate at 35 with "Double Core" plus the HDF/DoubleCore differential
(18 - 9 = 9) would be 169.25 + 9 = 178.25; the claimed identity fails. -/
theorem boundary_continuity_differential_fails :
    get_psf_rate "Hardwood" "Hardwood" 36 "Core + HDF" = .ok 172.50 ∧
    get_psf_rate "Hardwood" "Hardwood" 35 "Double Core" = .ok 169.25 ∧
    coreSurchargeOf "Core + HDF" - coreSurchargeOf "Double Core" = 9 ∧
    (172.50 : ℚ) ≠ 169.25 + 9 := by
  refine ⟨?_, ?_, by norm_num [coreSurchargeOf_DC, coreSurchargeOf_HDF], by norm_num⟩
  · simp only [get_psf_rate, lookup_HW_HW, coreSurchargeOf_DC, coreSurchargeOf_HDF]
    norm_num [inLowCoreTier, inHighCoreTier, preCorePSFRate, thicknessSurcharge,
      BASE_THICKNESS_MM, THICKNESS_SURCHARGE_RATE, pyRound, roundHalfEvenZ, Int.fract]
  · simp only [get_psf_rate, lookup_HW_HW, coreSurchargeOf_DC, coreSurchargeOf_HDF]
    norm_num [inLowCoreTier, inHighCoreTier, preCorePSFRate, thicknessSurcharge,
      BASE_THICKNESS_MM, THICKNESS_SURCHARGE_RATE, pyRound, roundHalfEvenZ, Int.fract]

/-- C4 amended: for every material pair present in
`MATERIAL_BASE_RATES`, the PSF rate with "Core + HDF" at thickness 36
equals the rate at thickness 35 with "Double Core" plus
`THICKNESS_SURCHARGE_RATE` (the one extra millimetre of thickness
surcharge, 3.25) — not plus the HDF/DoubleCore differential. -/
theorem boundary_continuity_thickness_step (rails filler : String)
    (h : (MATERIAL_BASE_RATES.lookup (rails, filler)).isSome = true) :
    get_psf_rate rails filler 36 "Core + HDF" =
      Except.map (fun r => r + THICKNESS_SURCHARGE_RATE)
        (get_psf_rate rails filler 35 "Double Core") := by
  obtain ⟨r, hr⟩ := Option.isSome_iff_exists.mp h
  rcases material_lookup_cases rails filler r hr with
    ⟨h1, h2, h3⟩ | ⟨h1, h2, h3⟩ | ⟨h1, h2, h3⟩ | ⟨h1, h2, h3⟩ | ⟨h1, h2, h3⟩ | ⟨h1, h2, h3⟩ <;>
    subst h1 <;> subst h2 <;>
    simp only [get_psf_rate, lookup_HW_HW, lookup_PW_EB, lookup_HW_EB, lookup_HW_PW,
      lookup_PW_HW, lookup_PW_PW, coreSurchargeOf_DC, coreSurchargeOf_HDF, Except.map] <;>
    norm_num [inLowCoreTier, inHighCoreTier, preCorePSFRate, thicknessSurcharge,
      BASE_THICKNESS_MM, THICKNESS_SURCHARGE_RATE, pyRound, roundHalfEvenZ, Int.fract]

/-- Witness for the amended C4 at the pair ("Hardwood", "Ecolax Board"). -/
theorem boundary_continuity_thickness_step_check :
    (MATERIAL_BASE_RATES.lookup ("Hardwood", "Ecolax Board")).isSome = true ∧
    get_psf_rate "Hardwood" "Ecolax Board" 36 "Core + HDF" =
      Except.map (fun r => r + THICKNESS_SURCHARGE_RATE)
        (get_psf_rate "Hardwood" "Ecolax Board" 35 "Double Core") :=
  ⟨rfl, boundary_continuity_thickness_step "Hardwood" "Ecolax Board" rfl⟩

/-! ### C5: the sample scenario's skeleton cost -/

/-- C5 counterexample: on the spec's concrete scenario the code computes
a skeleton cost of 3622.50, not the claimed 730.64. -/
theorem sample_skeleton_not_730_64 :
    calculate_skeleton_cost 2133.6 914.4 40 "Hardwood" "Ecolax Board" "Core + HDF" =
      .ok 3622.50 ∧ (3622.50 : ℚ) ≠ 730.64 := by
  constructor
  · have hr : get_psf_rate "Hardwood" "Ecolax Board" 40 "Core + HDF" = .ok 172.5 := by
      simp only [get_psf_rate, lookup_HW_EB, coreSurchargeOf_DC, coreSurchargeOf_HDF]
      norm_num [inLowCoreTier, inHighCoreTier, preCorePSFRate, thicknessSurcharge,
        BASE_THICKNESS_MM, THICKNESS_SURCHARGE_RATE, pyRound, roundHalfEvenZ, Int.fract]
    simp only [calculate_skeleton_cost, hr]
    norm_num [calculate_area_sqft, SQMM_TO_SQFT, pyRound, roundHalfEvenZ, Int.fract]
  · norm_num

/-- C5 amended: on the scenario L=2133.6, W=914.4, T=40,
rails="Hardwood", filler="Ecolax Board", core="Core + HDF", the 1x face
area is exactly 21 sqft, the PSF rate is 172.50, and the skeleton cost
is `round(21 * 172.50, 2) = 3622.50`. -/
theorem sample_skeleton_cost_exact :
    calculate_area_sqft 2133.6 914.4 1 = 21 ∧
    get_psf_rate "Hardwood" "Ecolax Board" 40 "Core + HDF" = .ok 172.50 ∧
    calculate_skeleton_cost 2133.6 914.4 40 "Hardwood" "Ecolax Board" "Core + HDF" =
      .ok 3622.50 := by
  have hr : get_psf_rate "Hardwood" "Ecolax Board" 40 "Core + HDF" = .ok 172.5 := by
    simp only [get_psf_rate, lookup_HW_EB, coreSurchargeOf_DC, coreSurchargeOf_HDF]
    norm_num [inLowCoreTier, inHighCoreTier, preCorePSFRate, thicknessSurcharge,
      BASE_THICKNESS_MM, THICKNESS_SURCHARGE_RATE, pyRound, roundHalfEvenZ, Int.fract]
  refine ⟨?_, by rw [hr]; norm_num, ?_⟩
  · norm_num [calculate_area_sqft, SQMM_TO_SQFT, pyRound, roundHalfEvenZ, Int.fract]
  · simp only [calculate_skeleton_cost, hr]
    norm_num [calculate_area_sqft, SQMM_TO_SQFT, pyRound, roundHalfEvenZ, Int.fract]

/-! ### C6: doubling law of the rounded face area -/

/-- C6 counterexample: for the positive dimensions L = 1/25000 and
W = 92903.04, the both-faces area is 0.0001 while twice the rounded
single-face area is 0 — the 4-decimal rounding breaks the doubling law. -/
theorem area_doubling_fails_in_general :
    (0 : ℚ) < 1/25000 ∧ (0 : ℚ) < 92903.04 ∧
    calculate_area_sqft (1/25000) 92903.04 2 ≠
      2 * calculate_area_sqft (1/25000) 92903.04 1 := by
  refine ⟨by norm_num, by norm_num, ?_⟩
  have h2 : calculate_area_sqft (1/25000) 92903.04 2 = 1/10000 := by
    norm_num [calculate_area_sqft, SQMM_TO_SQFT, pyRound, roundHalfEvenZ, Int.fract]
  have h1 : calculate_area_sqft (1/25000) 92903.04 1 = 0 := by
    norm_num [calculate_area_sqft, SQMM_TO_SQFT, pyRound, roundHalfEvenZ, Int.fract]
  rw [h1, h2]; norm_num

/-- C6 amended: for positive L and W whose exact single-face area needs
no rounding at 4 decimal places, the both-faces area equals exactly
twice the single-face area. -/
theorem area_doubling_for_exact_areas (L_mm W_mm : ℚ) (hL : 0 < L_mm) (hW : 0 < W_mm)
    (hexact : pyRound (L_mm * W_mm / SQMM_TO_SQFT * 1) 4 = L_mm * W_mm / SQMM_TO_SQFT * 1) :
    calculate_area_sqft L_mm W_mm 2 = 2 * calculate_area_sqft L_mm W_mm 1 := by
  have hm : ((roundHalfEvenZ (L_mm * W_mm / SQMM_TO_SQFT * 1 * 10 ^ 4) : ℤ) : ℚ) =
      L_mm * W_mm / SQMM_TO_SQFT * 1 * 10 ^ 4 := by
    have h := hexact
    rw [pyRound] at h
    exact (div_eq_iff (by norm_num : ((10 : ℚ) ^ 4) ≠ 0)).mp h
  have harg2 : L_mm * W_mm / SQMM_TO_SQFT * 2 = L_mm * W_mm / SQMM_TO_SQFT * 1 * 2 := by
    ring
  have hcast : L_mm * W_mm / SQMM_TO_SQFT * 1 * 2 * 10 ^ 4 =
      ((2 * roundHalfEvenZ (L_mm * W_mm / SQMM_TO_SQFT * 1 * 10 ^ 4) : ℤ) : ℚ) := by
    push_cast
    rw [hm]
    ring
  simp only [calculate_area_sqft, pyRound]
  rw [harg2, hcast, roundHalfEvenZ_intCast]
  push_cast
  ring

/-- Witness for the amended C6 at L = 2133.6, W = 914.4 (area exactly 21). -/
theorem area_doubling_for_exact_areas_check :
    (0 : ℚ) < 2133.6 ∧ (0 : ℚ) < 914.4 ∧
    calculate_area_sqft 2133.6 914.4 2 = 2 * calculate_area_sqft 2133.6 914.4 1 :=
  ⟨by norm_num, by norm_num,
   area_doubling_for_exact_areas 2133.6 914.4 (by norm_num) (by norm_num)
     (by norm_num [SQMM_TO_SQFT, pyRound, roundHalfEvenZ, Int.fract])⟩

/-! ### C7: unknown finish options and door types fall back to zero cost -/

/-- C7: if the finish option is absent from the chosen door type's rate
map (Laminate or Veneer), or the door type is neither "Laminate" nor
"Veneer", then `calculate_finish_cost` returns 0 and raises no error —
a silent fallback, unlike the hard failure of the material lookup. -/
theorem unknown_finish_silent_zero (L_mm W_mm : ℚ) (door_type finish_option : String)
    (hlam : door_type = "Laminate" → LAMINATE_RATES.lookup finish_option = none)
    (hven : door_type = "Veneer" → VENEER_RATES.lookup finish_option = none) :
    calculate_finish_cost L_mm W_mm door_type finish_option = 0 := by
  unfold calculate_finish_cost
  by_cases hd : door_type = "Laminate"
  · rw [if_pos hd, hlam hd]
  · rw [if_neg hd]
    by_cases hv : door_type = "Veneer"
    · rw [if_pos hv, hven hv]
    · rw [if_neg hv]

/-- Witness for C7: an unknown laminate finish and an unknown door type
both cost 0. -/
theorem unknown_finish_silent_zero_check :
    calculate_finish_cost 100 200 "Laminate" "Glitter" = 0 ∧
    calculate_finish_cost 100 200 "Plywood" "Smoke Oak Veneer" = 0 :=
  ⟨unknown_finish_silent_zero 100 200 "Laminate" "Glitter"
      (fun _ => rfl) (fun hv => by simp at hv),
   unknown_finish_silent_zero 100 200 "Plywood" "Smoke Oak Veneer"
      (fun hd => by simp at hd) (fun hv => by simp at hv)⟩

/-! ### C8: missing add-on rates are silently skipped -/

/-- C8: for each keyed area add-on (coating, grooving, routing) whose
selected option is not "none" but whose composite key has no rate in
`ADDON_SQFT_RATES`, the add-on contributes 0 and no error is raised,
while the remaining add-ons are still accumulated: the quote equals the
one with those options set to "none". -/
theorem missing_addon_rate_silent_skip
    (L_mm W_mm T_mm skeleton_cost : ℚ) (dl vh eb co gr ro : String)
    (hco : pyLower co ≠ "none")
    (hcomiss : ADDON_SQFT_RATES.lookup (addonLookupKey "Coating" co) = none)
    (hgr : pyLower gr ≠ "none")
    (hgrmiss : ADDON_SQFT_RATES.lookup (addonLookupKey "Grooving" gr) = none)
    (hro : pyLower ro ≠ "none")
    (hromiss : ADDON_SQFT_RATES.lookup (addonLookupKey "Routing" ro) = none) :
    keyedAddonCost "Coating" co (calculate_area_sqft L_mm W_mm 1) = 0 ∧
    keyedAddonCost "Grooving" gr (calculate_area_sqft L_mm W_mm 1) = 0 ∧
    keyedAddonCost "Routing" ro (calculate_area_sqft L_mm W_mm 1) = 0 ∧
    calculate_addon_cost L_mm W_mm T_mm skeleton_cost
      [("double_leaf", dl), ("vision_hole", vh), ("edge_banding", eb),
       ("coating", co), ("grooving", gr), ("routing", ro)] =
    calculate_addon_cost L_mm W_mm T_mm skeleton_cost
      [("double_leaf", dl), ("vision_hole", vh), ("edge_banding", eb),
       ("coating", "none"), ("grooving", "none"), ("routing", "none")] := by
  have hzero : ∀ pfx opt : String, pyLower opt ≠ "none" →
      ADDON_SQFT_RATES.lookup (addonLookupKey pfx opt) = none →
      ∀ a : ℚ, keyedAddonCost pfx opt a = 0 := by
    intro pfx opt hopt hmiss a
    simp [keyedAddonCost, hopt, hmiss]
  have hnone : ∀ pfx : String, ∀ a : ℚ, keyedAddonCost pfx "none" a = 0 := by
    intro pfx a
    simp [keyedAddonCost, pyLower]
  refine ⟨hzero _ _ hco hcomiss _, hzero _ _ hgr hgrmiss _, hzero _ _ hro hromiss _, ?_⟩
  simp only [calculate_addon_cost, dictGet, List.lookup]
  simp only [show (("coating" : String) == "double_leaf") = false from rfl,
    show (("coating" : String) == "vision_hole") = false from rfl,
    show (("coating" : String) == "edge_banding") = false from rfl,
    show (("coating" : String) == "coating") = true from rfl,
    show (("grooving" : String) == "double_leaf") = false from rfl,
    show (("grooving" : String) == "vision_hole") = false from rfl,
    show (("grooving" : String) == "edge_banding") = false from rfl,
    show (("grooving" : String) == "coating") = false from rfl,
    show (("grooving" : String) == "grooving") = true from rfl,
    show (("routing" : String) == "double_leaf") = false from rfl,
    show (("routing" : String) == "vision_hole") = false from rfl,
    show (("routing" : String) == "edge_banding") = false from rfl,
    show (("routing" : String) == "coating") = false from rfl,
    show (("routing" : String) == "grooving") = false from rfl,
    show (("routing" : String) == "routing") = true from rfl,
    show (("double_leaf" : String) == "double_leaf") = true from rfl,
    show (("vision_hole" : String) == "double_leaf") = false from rfl,
    show (("vision_hole" : String) == "vision_hole") = true from rfl,
    show (("edge_banding" : String) == "double_leaf") = false from rfl,
    show (("edge_banding" : String) == "vision_hole") = false from rfl,
    show (("edge_banding" : String) == "edge_banding") = true from rfl]
  simp only [Option.getD_some]
  rw [hzero _ _ hco hcomiss, hzero _ _ hgr hgrmiss, hzero _ _ hro hromiss,
    hnone, hnone, hnone]

/-- Witness for C8 with the unpriced option "Mystery Option" selected
for all three keyed add-ons. -/
theorem missing_addon_rate_silent_skip_check :
    keyedAddonCost "Coating" "Mystery Option" (calculate_area_sqft 100 200 1) = 0 ∧
    keyedAddonCost "Grooving" "Mystery Option" (calculate_area_sqft 100 200 1) = 0 ∧
    keyedAddonCost "Routing" "Mystery Option" (calculate_area_sqft 100 200 1) = 0 ∧
    calculate_addon_cost 100 200 40 500
      [("double_leaf", "no"), ("vision_hole", "no"), ("edge_banding", "no"),
       ("coating", "Mystery Option"), ("grooving", "Mystery Option"),
       ("routing", "Mystery Option")] =
    calculate_addon_cost 100 200 40 500
      [("double_leaf", "no"), ("vision_hole", "no"), ("edge_banding", "no"),
       ("coating", "none"), ("grooving", "none"), ("routing", "none")] :=
  missing_addon_rate_silent_skip 100 200 40 500 "no" "no" "no"
    "Mystery Option" "Mystery Option" "Mystery Option"
    (by decide) rfl (by decide) rfl (by decide) rfl

/-! ### C9: no thickness surcharge at or below the base thickness -/

/-- C9: for every thickness at most `BASE_THICKNESS_MM`, the thickness
surcharge term of `get_psf_rate` is exactly 0, so the pre-core PSF rate
equals the base material rate alone. -/
theorem no_thickness_surcharge_at_or_below_base (T_mm R_base : ℚ)
    (h : T_mm ≤ BASE_THICKNESS_MM) :
    thicknessSurcharge T_mm = 0 ∧ preCorePSFRate R_base T_mm = R_base := by
  have hmax : max 0 (T_mm - BASE_THICKNESS_MM) = 0 := max_eq_left (by linarith)
  constructor
  · simp [thicknessSurcharge, hmax]
  · simp [preCorePSFRate, thicknessSurcharge, hmax]

/-- Witness for C9 at thickness 25 and base rate 144. -/
theorem no_thickness_surcharge_at_or_below_base_check :
    (25 : ℚ) ≤ BASE_THICKNESS_MM ∧
    (thicknessSurcharge 25 = 0 ∧ preCorePSFRate 144 25 = 144) :=
  ⟨by norm_num [BASE_THICKNESS_MM],
   no_thickness_surcharge_at_or_below_base 25 144 (by norm_num [BASE_THICKNESS_MM])⟩

/-! ### C10: the material lookup is order-sensitive in (rails, filler) -/

/-- C10: ("Hardwood", "Ecolax Board") is priced but the reversed pair
("Ecolax Board", "Hardwood") is absent, so swapping rails and filler of
a priced combination makes `get_psf_rate` raise the
unknown-material-combination error, for every thickness and core option. -/
theorem material_lookup_order_sensitive (T_mm : ℚ) (core_option : String) :
    MATERIAL_BASE_RATES.lookup ("Hardwood", "Ecolax Board") = some 131.00 ∧
    MATERIAL_BASE_RATES.lookup ("Ecolax Board", "Hardwood") = none ∧
    get_psf_rate "Ecolax Board" "Hardwood" T_mm core_option =
      .error "Pricing not defined for material combination: (Ecolax Board, Hardwood)" :=
  ⟨rfl, rfl, rfl⟩

end DoorPricing
